import Mathlib

/-!
# tilda: window and tab lifecycle (`src/tilda_window.c`)

A shallow embedding of `tilda_window.c` and the properties of its window
controller: the per-instance config file name, the tab registry (`add_tab`,
`find_tt_in_g_list`, `close_current_tab`, `close_tab`) and window creation
(`init_tilda_window`).

Conventions of the embedding

* C strings are lists of `gchar` (the bytes before the terminating NUL), so
  `strlen` is the list length.  String lengths are assumed to stay far below
  `2^31`, so the `gint` size computation of `get_config_file_name` does not wrap.
* Pointers are natural numbers.  For `GtkWidget*` the value `0` is `NULL`.
  A `tilda_term*` is an address `Ptr`; the only field of `tilda_term` this file
  reads is `hbox`, kept as the heap map `tilda_window.hbox`.
* `free` has no observable effect on the modelled state and is left out.
* Calls into GTK+ are modelled after the GTK+ 2 reference manual; the results of
  other external calls (`malloc`, `getinstance`, `config_get*`, the key binder,
  the icon loader) are inputs.
-/

namespace Tilda

/-! ## C strings and `g_snprintf` -/

/-- One byte of a C string. -/
abbrev gchar := Char

/-- C `strlen`: number of bytes before the terminating NUL. -/
def strlen (s : List gchar) : Nat := s.length

/-- The text `printf` produces for the conversion `%d`. -/
def format_d (v : Int) : List gchar :=
  if v < 0 then '-' :: Nat.toDigits 10 v.natAbs else Nat.toDigits 10 v.toNat

/-- GLib `g_snprintf (buf, n, ...)`: the buffer receives at most `n - 1` bytes of
the formatted text `out`, followed by NUL (nothing is stored when `n = 0`). -/
def g_snprintf (n : Nat) (out : List gchar) : List gchar := out.take (n - 1)

/-- The constant `config_prefix[] = "/.tilda/config_"`. -/
def config_prefix : List gchar := "/.tilda/config_".toList

/-- `sizeof (instance_str)` for `gchar instance_str[6]`. -/
def instance_str_size : Nat := 6

/-- `get_config_file_name` (tilda_window.c, lines 66-90).  `malloc_ok` tells whether
`malloc` returned a buffer; `none` is the `print_and_exit` path. -/
def get_config_file_name (malloc_ok : Bool) (home_dir : List gchar) (inst : Int) :
    Option (List gchar) :=
  /- Get a string form of the instance -/
  let instance_str := g_snprintf instance_str_size (format_d inst)
  /- Calculate the config_file variable's size -/
  let config_file_size := strlen home_dir + strlen config_prefix + strlen instance_str + 1
  /- Allocate the config_file variable -/
  if malloc_ok = false then none
  else
    /- Store the config file name in the allocated space -/
    some (g_snprintf config_file_size (home_dir ++ config_prefix ++ instance_str))

/-! ## GLib lists -/

/-- Address of a `tilda_term` structure (`tilda_term*`, never `NULL` here). -/
abbrev Ptr := Nat

/-- GLib `g_list_first`: `tw->terms` already is the head of the list. -/
def g_list_first (l : List Ptr) : List Ptr := l

/-- GLib `g_list_append`. -/
def g_list_append (l : List Ptr) (data : Ptr) : List Ptr := l ++ [data]

/-- GLib `g_list_remove`: drops the first node whose data pointer is `data`;
the list is unchanged when there is none. -/
def g_list_remove (l : List Ptr) (data : Ptr) : List Ptr := l.erase data

/-! ## GTK+ notebook and window -/

/-- A `GtkWidget*`; `0` is `NULL`. -/
abbrev GtkWidget := Nat

/-- GTK+ `GtkPositionType`. -/
inductive GtkPositionType where
  | GTK_POS_LEFT
  | GTK_POS_RIGHT
  | GTK_POS_TOP
  | GTK_POS_BOTTOM
  deriving DecidableEq, Repr

/-- The part of a `GtkNotebook` that `tilda_window.c` reads or writes. -/
structure GtkNotebook where
  /-- The pages, in display order. -/
  children : List GtkWidget
  /-- The current page, `0` when there is none. -/
  cur_page : GtkWidget
  show_tabs : Bool
  show_border : Bool
  tab_pos : GtkPositionType
  homogeneous : Bool
  /-- The widget's own visible flag (`gtk_widget_show (tw->notebook)`). -/
  visible : Bool
  deriving DecidableEq, Repr

/-- GTK+ `gtk_notebook_new`, with the documented property defaults. -/
def gtk_notebook_new : GtkNotebook :=
  { children := [], cur_page := 0, show_tabs := true, show_border := true,
    tab_pos := GtkPositionType.GTK_POS_TOP, homogeneous := false, visible := false }

/-- GTK+ `gtk_notebook_get_n_pages`. -/
def gtk_notebook_get_n_pages (nb : GtkNotebook) : Int := nb.children.length

/-- The list node a page number designates in `gtk_notebook_get_nth_page` and
`gtk_notebook_remove_page`: `g_list_nth` for a non-negative number, the last
node for a negative one ("or -1 to get the last page"); `none` when there is
no such node. -/
def notebook_node (nb : GtkNotebook) (page_num : Int) : Option Nat :=
  if 0 ≤ page_num then
    if page_num.toNat < nb.children.length then some page_num.toNat else none
  else
    if nb.children = [] then none else some (nb.children.length - 1)

/-- GTK+ `gtk_notebook_get_nth_page`: the child widget, or `NULL` if the page
number is out of bounds. -/
def gtk_notebook_get_nth_page (nb : GtkNotebook) (page_num : Int) : GtkWidget :=
  match notebook_node nb page_num with
  | some i => nb.children.getD i 0
  | none => 0

/-- GTK+ `gtk_notebook_page_num`: the index of the page containing `child`, or
`-1` if `child` is not in the notebook. -/
def gtk_notebook_page_num (nb : GtkNotebook) (child : GtkWidget) : Int :=
  if child ∈ nb.children then (nb.children.indexOf child : Int) else -1

/-- GTK+ `gtk_notebook_get_current_page`: the index of the current page, `-1`
if the notebook has no current page. -/
def gtk_notebook_get_current_page (nb : GtkNotebook) : Int :=
  if nb.cur_page = 0 then -1 else gtk_notebook_page_num nb nb.cur_page

/-- GTK+ 2 `gtk_notebook_real_remove` on the node at index `i`: the node is
unlinked; if it held the current page, the previous page becomes current, or
the following one when there is no previous page.  (No result below depends on
which neighbour is chosen.) -/
def gtk_notebook_real_remove (nb : GtkNotebook) (i : Nat) : GtkNotebook :=
  let removed := nb.children.getD i 0
  let next_list := if 0 < i then nb.children.getD (i - 1) 0 else nb.children.getD (i + 1) 0
  { nb with
    children := nb.children.eraseIdx i
    cur_page := if nb.cur_page = removed then next_list else nb.cur_page }

/-- GTK+ `gtk_notebook_remove_page`: removes the page with the given index;
"if -1, the last page will be removed"; nothing happens when the index is out
of bounds. -/
def gtk_notebook_remove_page (nb : GtkNotebook) (page_num : Int) : GtkNotebook :=
  match notebook_node nb page_num with
  | some i => gtk_notebook_real_remove nb i
  | none => nb

/-- GTK+ `gtk_notebook_append_page`; the first page of a notebook becomes its
current page. -/
def gtk_notebook_append_page (nb : GtkNotebook) (child : GtkWidget) : GtkNotebook :=
  { nb with
    children := nb.children ++ [child]
    cur_page := if nb.children = [] then child else nb.cur_page }

/-- GTK+ `gtk_notebook_set_show_tabs`. -/
def gtk_notebook_set_show_tabs (nb : GtkNotebook) (b : Bool) : GtkNotebook :=
  { nb with show_tabs := b }

/-- GTK+ `gtk_notebook_set_tab_pos`. -/
def gtk_notebook_set_tab_pos (nb : GtkNotebook) (pos : GtkPositionType) : GtkNotebook :=
  { nb with tab_pos := pos }

/-- GTK+ `gtk_notebook_set_show_border`. -/
def gtk_notebook_set_show_border (nb : GtkNotebook) (b : Bool) : GtkNotebook :=
  { nb with show_border := b }

/-- GTK+ `gtk_notebook_set_homogeneous_tabs`. -/
def gtk_notebook_set_homogeneous_tabs (nb : GtkNotebook) (b : Bool) : GtkNotebook :=
  { nb with homogeneous := b }

/-- The callbacks `init_tilda_window` connects to accelerators. -/
inductive Action where
  | clean_up
  | next_tab
  | prev_tab
  | add_tab
  | close_current_tab
  | goto_tab (n : Nat)
  | ccopy
  | cpaste
  deriving DecidableEq, Repr

/-- One `gtk_accel_group_connect` entry: key, modifier mask, callback. -/
structure Accel where
  key : String
  control : Bool
  shift : Bool
  mod1 : Bool
  action : Action
  deriving DecidableEq, Repr

/-- The part of the top-level `GtkWindow` that `tilda_window.c` writes. -/
structure GtkWindow where
  /-- The window is currently shown on screen. -/
  visible : Bool
  /-- `gtk_widget_show` has been called on the window since it was created. -/
  was_shown : Bool
  rgba_colormap : Bool
  decorated : Bool
  has_icon : Bool
  stuck : Bool
  keep_above : Bool
  position : Int × Int
  default_size : Int × Int
  size : Int × Int
  accels : List Accel
  deriving DecidableEq, Repr

/-- GTK+ `gtk_window_new (GTK_WINDOW_TOPLEVEL)`: a new window is not shown. -/
def gtk_window_new : GtkWindow :=
  { visible := false, was_shown := false, rgba_colormap := false, decorated := true,
    has_icon := false, stuck := false, keep_above := false, position := (0, 0),
    default_size := (-1, -1), size := (-1, -1), accels := [] }

/-- GTK+ `gtk_widget_show` on the top-level window. -/
def gtk_widget_show (w : GtkWindow) : GtkWindow :=
  { w with visible := true, was_shown := true }

/-- GTK+ `gtk_widget_hide` on the top-level window. -/
def gtk_widget_hide (w : GtkWindow) : GtkWindow :=
  { w with visible := false }

/-! ## The window state -/

/-- The values of `tw->current_state`. -/
inductive tilda_state where
  | UP
  | DOWN
  deriving DecidableEq, Repr

/-- The `tilda_window` structure, together with the heap fields of the
`tilda_term` structures it points to. -/
structure tilda_window where
  window : GtkWindow
  notebook : GtkNotebook
  /-- The field `terms`: the `GList` of `tilda_term*`. -/
  terms : List Ptr
  /-- The field `tt->hbox` of the `tilda_term` at each address. -/
  hbox : Ptr → GtkWidget
  /-- The field `instance`. -/
  inst : Int
  home_dir : List gchar
  config_file : List gchar
  have_argb_visual : Bool
  current_state : tilda_state
  /-- The global key binding (`tomboy_keybinder_bind`) is registered. -/
  key_bound : Bool
  /-- A `clean_up (tw)` call has been made. -/
  torn_down : Bool

/-- `init_tilda_window_instance` (lines 99-113).  `instance_number` is what the
external `getinstance` stores in `tw->instance`; `config_init` is external and
only receives the file name.  `none` is the `print_and_exit` path. -/
def init_tilda_window_instance (malloc_ok : Bool) (instance_number : Int)
    (tw : tilda_window) : Option tilda_window :=
  let tw := { tw with inst := instance_number }
  match get_config_file_name malloc_ok tw.home_dir tw.inst with
  | none => none
  | some name => some { tw with config_file := name }

/-- Modelled from the spec: `clean_up` (defined outside `tilda_window.c`) is the
full teardown of the window; section 8 says that after it "no TabEntry
remains".  The flag `torn_down` records that it was invoked. -/
def clean_up (tw : tilda_window) : tilda_window :=
  { tw with terms := [], torn_down := true }

/-- Modelled from the spec: `init_tilda_terminal` (tilda_terminal.c is not among
the sources) initialises the `tilda_term` at `tt`, attaches its page to the tab
container and appends the entry to `terms` (section 4.2, addTab).  `page` is
the widget created for `tt->hbox`. -/
def init_tilda_terminal (tw : tilda_window) (tt : Ptr) (page : GtkWidget)
    (_in_main : Bool) : tilda_window :=
  { tw with
    hbox := Function.update tw.hbox tt page
    notebook := gtk_notebook_append_page tw.notebook page
    terms := g_list_append tw.terms tt }

/-- The directions of `pull`. -/
inductive pull_direction where
  | PULL_UP
  | PULL_DOWN
  deriving DecidableEq, Repr

/-- Modelled from the spec: `pull` (key_grabber.c is not among the sources)
"transitions visibilityState; shows or hides/animates the window accordingly"
(section 4.2). -/
def pull (tw : tilda_window) (d : pull_direction) : tilda_window :=
  match d with
  | pull_direction.PULL_DOWN =>
    { tw with current_state := tilda_state.DOWN, window := gtk_widget_show tw.window }
  | pull_direction.PULL_UP =>
    { tw with current_state := tilda_state.UP, window := gtk_widget_hide tw.window }

/-! ## Tab operations -/

/-- `add_tab` (lines 115-132).  `malloc_result` is what `malloc` returned
(`none` for `NULL`); `page` is the widget `init_tilda_terminal` creates. -/
def add_tab (malloc_result : Option Ptr) (page : GtkWidget) (tw : tilda_window) :
    tilda_window :=
  match malloc_result with
  | none => tw
  | some tt => init_tilda_terminal tw tt page false

/-- A run-time fault of the C code. -/
inductive Fault where
  /-- A `NULL` list cursor was dereferenced. -/
  | null_deref
  deriving DecidableEq, Repr

/-- The `do ... while ((terms = terms->next) != NULL)` loop of
`find_tt_in_g_list` on the list cursor.  The body reads `terms->data` first, so
entering with a `NULL` cursor is a fault; after a mismatch the loop goes on only
if there is a next node. -/
def find_tt_loop (hbox : Ptr → GtkWidget) (current_page : GtkWidget) :
    List Ptr → Except Fault (Option Ptr)
  | [] => Except.error Fault.null_deref
  | [tt] => if hbox tt = current_page then Except.ok (some tt) else Except.ok none
  | tt :: next :: rest =>
    if hbox tt = current_page then Except.ok (some tt)
    else find_tt_loop hbox current_page (next :: rest)

/-- `find_tt_in_g_list` (lines 142-165); `Except.ok none` is the `NULL` result. -/
def find_tt_in_g_list (tw : tilda_window) (pos : Int) : Except Fault (Option Ptr) :=
  let terms := g_list_first tw.terms
  let current_page := gtk_notebook_get_nth_page tw.notebook pos
  find_tt_loop tw.hbox current_page terms

/-- `close_current_tab` (lines 167-193). -/
def close_current_tab (tw : tilda_window) : Except Fault tilda_window :=
  if gtk_notebook_get_n_pages tw.notebook < 2 then
    Except.ok (clean_up tw)
  else
    let pos := gtk_notebook_get_current_page tw.notebook
    match find_tt_in_g_list tw pos with
    | Except.error e => Except.error e
    | Except.ok none => Except.ok tw
    | Except.ok (some tt) =>
      let nb := gtk_notebook_remove_page tw.notebook pos
      let nb := if gtk_notebook_get_n_pages nb = 1 then gtk_notebook_set_show_tabs nb false
                else nb
      Except.ok { tw with notebook := nb, terms := g_list_remove tw.terms tt }

/-- `close_tab` (lines 195-225); `tt` is `tc->tt` of the `tilda_collect` passed
as `data`. -/
def close_tab (tw : tilda_window) (tt : Ptr) : tilda_window :=
  if gtk_notebook_get_n_pages tw.notebook < 2 then
    clean_up tw
  else
    let pos := gtk_notebook_page_num tw.notebook (tw.hbox tt)
    let nb := gtk_notebook_remove_page tw.notebook pos
    let nb := if gtk_notebook_get_n_pages nb = 1 then gtk_notebook_set_show_tabs nb false
              else nb
    { tw with notebook := nb, terms := g_list_remove tw.terms tt }

/-! ## Window creation -/

/-- The configuration keys `init_tilda_window` reads (`config_getint`,
`config_getbool`, `config_getstr`). -/
structure Config where
  tab_pos : Int
  notebook_border : Bool
  key : String
  pinned : Bool
  above : Bool
  x_pos : Int
  y_pos : Int
  max_width : Int
  max_height : Int
  hidden : Bool
  deriving DecidableEq, Repr

/-- Results of the external calls made while the window is created. -/
structure Env where
  /-- `gdk_screen_get_rgba_colormap` returned a colormap. -/
  rgba_colormap : Bool
  /-- `gdk_screen_is_composited`. -/
  composited : Bool
  /-- `gdk_pixbuf_new_from_file` returned a pixbuf. -/
  icon_loaded : Bool
  /-- The return value of `tomboy_keybinder_bind`. -/
  bind_ok : Bool
  deriving DecidableEq, Repr

/-- `initialize_alpha_mode` (lines 36-56). -/
def initialize_alpha_mode (env : Env) (tw : tilda_window) : tilda_window :=
  if env.rgba_colormap && env.composited then
    { tw with window := { tw.window with rgba_colormap := true }, have_argb_visual := true }
  else
    { tw with have_argb_visual := false }

/-- The `switch (config_getint ("tab_pos"))` of `init_tilda_window`
(lines 259-277); the `default` branch only prints a warning. -/
def init_tilda_window_tab_pos (tab_pos : Int) (nb : GtkNotebook) : GtkNotebook :=
  if tab_pos = 0 then gtk_notebook_set_tab_pos nb GtkPositionType.GTK_POS_TOP
  else if tab_pos = 1 then gtk_notebook_set_tab_pos nb GtkPositionType.GTK_POS_BOTTOM
  else if tab_pos = 2 then gtk_notebook_set_tab_pos nb GtkPositionType.GTK_POS_LEFT
  else if tab_pos = 3 then gtk_notebook_set_tab_pos nb GtkPositionType.GTK_POS_RIGHT
  else nb

/-- The accelerators `init_tilda_window` connects (lines 286-346), in order. -/
def accel_table : List Accel :=
  [ Accel.mk "q" true true false Action.clean_up,
    Accel.mk "Page_Up" true true false Action.next_tab,
    Accel.mk "Page_Down" true true false Action.prev_tab,
    Accel.mk "t" true true false Action.add_tab,
    Accel.mk "w" true true false Action.close_current_tab,
    Accel.mk "1" false false true (Action.goto_tab 1),
    Accel.mk "2" false false true (Action.goto_tab 2),
    Accel.mk "3" false false true (Action.goto_tab 3),
    Accel.mk "4" false false true (Action.goto_tab 4),
    Accel.mk "5" false false true (Action.goto_tab 5),
    Accel.mk "6" false false true (Action.goto_tab 6),
    Accel.mk "7" false false true (Action.goto_tab 7),
    Accel.mk "8" false false true (Action.goto_tab 8),
    Accel.mk "9" false false true (Action.goto_tab 9),
    Accel.mk "0" false false true (Action.goto_tab 10),
    Accel.mk "c" true true false Action.ccopy,
    Accel.mk "v" true true false Action.cpaste ]

/-- `init_tilda_window` (lines 227-406): the returned `gboolean` and the window
state it leaves.  `tt` is the first `tilda_term`, `page` the widget created for
its `hbox`. -/
def init_tilda_window (cfg : Config) (env : Env) (tw : tilda_window) (tt : Ptr)
    (page : GtkWidget) : Bool × tilda_window :=
  /- Create a window to hold the scrolling shell -/
  let tw := { tw with window := gtk_window_new }
  let tw := initialize_alpha_mode env tw
  /- Create notebook to hold all terminal widgets -/
  let tw := { tw with notebook := gtk_notebook_set_homogeneous_tabs gtk_notebook_new true }
  /- Init GList of all tilda_term structures -/
  let tw := { tw with terms := [] }
  let tw := { tw with notebook := init_tilda_window_tab_pos cfg.tab_pos tw.notebook }
  /- gtk_container_add, gtk_widget_show (tw->notebook) -/
  let tw := { tw with notebook := { tw.notebook with visible := true } }
  let tw := { tw with
    notebook := gtk_notebook_set_show_border tw.notebook cfg.notebook_border }
  let tw := init_tilda_terminal tw tt page true
  /- Create Accel Group to add key codes for quit, next, prev and new tabs -/
  let tw := { tw with window := { tw.window with accels := accel_table } }
  let tw := { tw with window := { tw.window with decorated := false } }
  /- Set a window icon! -/
  let tw := if env.icon_loaded then { tw with window := { tw.window with has_icon := true } }
            else tw
  /- Initialize and set up the keybinding to toggle tilda's visibility. -/
  let ret := env.bind_ok
  if !ret then
    (false, tw)
  else
    let tw := { tw with key_bound := true }
    /- Set up all window properties -/
    let tw := if cfg.pinned then { tw with window := { tw.window with stuck := true } }
              else tw
    let tw := { tw with window := { tw.window with keep_above := cfg.above } }
    /- Position the window, and show it if we're ready -/
    let tw := { tw with current_state := tilda_state.UP }
    let tw := { tw with window := { tw.window with position := (cfg.x_pos, cfg.y_pos) } }
    let tw := { tw with
      window := { tw.window with default_size := (cfg.max_width, cfg.max_height) } }
    let tw := { tw with window := { tw.window with size := (cfg.max_width, cfg.max_height) } }
    if cfg.hidden then
      let tw := { tw with window := gtk_widget_show tw.window }
      let tw := { tw with window := gtk_widget_hide tw.window }
      (true, tw)
    else
      (true, pull tw pull_direction.PULL_DOWN)

/-! ## Sequences of close operations -/

/-- A close request dispatched to the window controller. -/
inductive CloseOp where
  /-- The menu callback `close_tab` on the entry `tt`. -/
  | close_tab (tt : Ptr)
  /-- The accelerator callback `close_current_tab`. -/
  | close_current_tab
  deriving DecidableEq, Repr

/-- One dispatched close request. -/
def dispatch (tw : tilda_window) : CloseOp → Except Fault tilda_window
  | CloseOp.close_tab tt => Except.ok (close_tab tw tt)
  | CloseOp.close_current_tab => close_current_tab tw

/-- A sequence of close requests.  Teardown ends the process, so nothing is
dispatched any more once `clean_up` has been called. -/
def run_closes : List CloseOp → tilda_window → Except Fault tilda_window
  | [], tw => Except.ok tw
  | op :: ops, tw =>
    if tw.torn_down then Except.ok tw
    else
      match dispatch tw op with
      | Except.error e => Except.error e
      | Except.ok tw1 => run_closes ops tw1

/-! ## Invariants of the data model -/

/-- What GTK+ guarantees of a notebook: a widget is a page at most once, `NULL`
is not a page, and a notebook with pages has one of them as its current page. -/
def notebook_ok (nb : GtkNotebook) : Prop :=
  nb.children.Nodup ∧ 0 ∉ nb.children ∧ (nb.children ≠ [] → nb.cur_page ∈ nb.children)

/-- The invariant of the window state (spec, section 3): every page reference
in `terms` is unique and corresponds to exactly one live page of the tab
container. -/
def window_ok (tw : tilda_window) : Prop :=
  notebook_ok tw.notebook ∧ (tw.terms.map tw.hbox).Perm tw.notebook.children

instance (nb : GtkNotebook) : Decidable (notebook_ok nb) := by
  unfold notebook_ok; infer_instance

instance (tw : tilda_window) : Decidable (window_ok tw) := by
  unfold window_ok; infer_instance

/-- The value `v` is none of the tab positions 0, 1, 2, 3. -/
def bad_tab_pos (v : Int) : Prop := v ≠ 0 ∧ v ≠ 1 ∧ v ≠ 2 ∧ v ≠ 3

instance (v : Int) : Decidable (bad_tab_pos v) := by
  unfold bad_tab_pos; infer_instance

/-- What a sequence of close requests maintains until teardown: the notebook
guarantees hold, no page is without an entry to close it, and `terms` is not
empty. -/
def close_inv (tw : tilda_window) : Prop :=
  notebook_ok tw.notebook ∧ tw.notebook.children.length ≤ tw.terms.length ∧
    1 ≤ tw.terms.length

/-! ## Sample states -/

/-- A notebook showing its tab strip with the given pages, the first one current. -/
def sample_notebook (pages : List GtkWidget) : GtkNotebook :=
  { gtk_notebook_new with children := pages, cur_page := pages.headD 0 }

/-- A window whose entry at address `p` has the page `p + 100`. -/
def sample_window (terms : List Ptr) (pages : List GtkWidget) : tilda_window :=
  { window := gtk_window_new, notebook := sample_notebook pages, terms := terms,
    hbox := fun p => p + 100, inst := 0, home_dir := "/home/u".toList, config_file := [],
    have_argb_visual := false, current_state := tilda_state.DOWN, key_bound := true,
    torn_down := false }

/-- A configuration with the given `tab_pos` and `hidden` values. -/
def sample_config (tab_pos : Int) (hidden : Bool) : Config :=
  { tab_pos := tab_pos, notebook_border := false, key := "F1", pinned := false,
    above := true, x_pos := 0, y_pos := 0, max_width := 600, max_height := 150,
    hidden := hidden }

/-- External results with the given icon-load and key-bind outcomes. -/
def sample_env (icon_loaded bind_ok : Bool) : Env :=
  { rgba_colormap := false, composited := false, icon_loaded := icon_loaded,
    bind_ok := bind_ok }

end Tilda

namespace Tilda

/-! ## Facts about lists -/

theorem eraseIdx_indexOf_eq_erase (a : Nat) :
    ∀ l : List Nat, l.eraseIdx (l.indexOf a) = l.erase a := by
  intro l
  induction l with
  | nil => simp
  | cons b t ih =>
    by_cases h : b = a
    · subst h; simp
    · have h2 : ¬ (b == a) = true := by simpa using h
      rw [List.indexOf_cons, List.erase_cons]
      simp only [h2, if_false, cond_false, List.eraseIdx_cons_succ, ih]
      rfl

theorem map_erase_of_inj_on (f : Nat → Nat) (t : Nat) :
    ∀ l : List Nat, (∀ x ∈ l, f x = f t → x = t) →
      (l.erase t).map f = (l.map f).erase (f t) := by
  intro l
  induction l with
  | nil => intro _; simp
  | cons b r ih =>
    intro hinj
    by_cases h : b = t
    · subst h; simp
    · have hf : f b ≠ f t := fun e => h (hinj b (by simp) e)
      have ih2 := ih (fun x hx e => hinj x (by simp [hx]) e)
      simp [List.erase_cons, h, hf, ih2]

/-! ## Facts about the notebook primitives -/

theorem notebook_node_lt (nb : GtkNotebook) (p : Int) (i : Nat)
    (h : notebook_node nb p = some i) : i < nb.children.length := by
  unfold notebook_node at h
  split at h
  · split at h
    · simp only [Option.some.injEq] at h; omega
    · simp at h
  · split at h
    · simp at h
    · rename_i hne
      simp only [Option.some.injEq] at h
      have : 0 < nb.children.length := List.length_pos.mpr hne
      omega

theorem notebook_node_page_num_of_mem (nb : GtkNotebook) (w : GtkWidget)
    (h : w ∈ nb.children) :
    notebook_node nb (gtk_notebook_page_num nb w) = some (nb.children.indexOf w) := by
  have hlt : nb.children.indexOf w < nb.children.length := List.indexOf_lt_length.mpr h
  simp [notebook_node, gtk_notebook_page_num, h, hlt]

theorem notebook_node_page_num_of_not_mem (nb : GtkNotebook) (w : GtkWidget)
    (h : w ∉ nb.children) (hne : nb.children ≠ []) :
    notebook_node nb (gtk_notebook_page_num nb w) = some (nb.children.length - 1) := by
  simp [notebook_node, gtk_notebook_page_num, h, hne]

theorem remove_page_children_of_mem (nb : GtkNotebook) (w : GtkWidget)
    (h : w ∈ nb.children) :
    (gtk_notebook_remove_page nb (gtk_notebook_page_num nb w)).children
      = nb.children.erase w := by
  simp [gtk_notebook_remove_page, notebook_node_page_num_of_mem nb w h,
    gtk_notebook_real_remove, eraseIdx_indexOf_eq_erase]

theorem remove_page_children_of_not_mem (nb : GtkNotebook) (w : GtkWidget)
    (h : w ∉ nb.children) :
    (gtk_notebook_remove_page nb (gtk_notebook_page_num nb w)).children
      = nb.children.dropLast := by
  by_cases hne : nb.children = []
  · simp [gtk_notebook_remove_page, notebook_node, gtk_notebook_page_num, h, hne]
  · have hpos : 0 < nb.children.length := List.length_pos.mpr hne
    simp only [gtk_notebook_remove_page, notebook_node_page_num_of_not_mem nb w h hne,
      gtk_notebook_real_remove]
    exact (List.dropLast_eq_eraseIdx (by omega)).symm

theorem remove_page_show_tabs (nb : GtkNotebook) (p : Int) :
    (gtk_notebook_remove_page nb p).show_tabs = nb.show_tabs := by
  unfold gtk_notebook_remove_page
  split <;> simp [gtk_notebook_real_remove]

theorem nth_page_page_num (nb : GtkNotebook) (w : GtkWidget) (h : w ∈ nb.children) :
    gtk_notebook_get_nth_page nb (gtk_notebook_page_num nb w) = w := by
  have hlt : nb.children.indexOf w < nb.children.length := List.indexOf_lt_length.mpr h
  simp only [gtk_notebook_get_nth_page, notebook_node_page_num_of_mem nb w h]
  rw [List.getD_eq_getElem _ _ hlt]
  exact List.getElem_indexOf hlt

theorem current_page_eq (nb : GtkNotebook) (hok : notebook_ok nb)
    (hne : nb.children ≠ []) :
    gtk_notebook_get_current_page nb = gtk_notebook_page_num nb nb.cur_page := by
  have hmem := hok.2.2 hne
  have h0 : nb.cur_page ≠ 0 := fun e => hok.2.1 (e ▸ hmem)
  simp [gtk_notebook_get_current_page, h0]

theorem children_ne_nil_of_two_pages (nb : GtkNotebook)
    (h : ¬ gtk_notebook_get_n_pages nb < 2) : nb.children ≠ [] := by
  intro e
  apply h
  simp [gtk_notebook_get_n_pages, e]

theorem two_le_length_of_two_pages (nb : GtkNotebook)
    (h : ¬ gtk_notebook_get_n_pages nb < 2) : 2 ≤ nb.children.length := by
  unfold gtk_notebook_get_n_pages at h
  omega

/-! ## Facts about the tab lookup -/

theorem find_tt_loop_eq_find (hbox : Ptr → GtkWidget) (cp : GtkWidget) :
    ∀ l : List Ptr, l ≠ [] →
      find_tt_loop hbox cp l = Except.ok (l.find? fun t => decide (hbox t = cp))
  | [], h => absurd rfl h
  | [tt], _ => by
    by_cases h : hbox tt = cp <;> simp [find_tt_loop, h]
  | tt :: next :: rest, _ => by
    by_cases h : hbox tt = cp
    · simp [find_tt_loop, h]
    · have ih := find_tt_loop_eq_find hbox cp (next :: rest) (by simp)
      rw [find_tt_loop, if_neg h, ih]
      simp [List.find?_cons, h]

theorem find_tt_in_g_list_some (tw : tilda_window) (pos : Int) (tt : Ptr)
    (h : find_tt_in_g_list tw pos = Except.ok (some tt)) :
    tt ∈ tw.terms ∧ tw.hbox tt = gtk_notebook_get_nth_page tw.notebook pos := by
  unfold find_tt_in_g_list g_list_first at h
  by_cases hnil : tw.terms = []
  · simp [hnil, find_tt_loop] at h
  · rw [find_tt_loop_eq_find _ _ _ hnil] at h
    have h2 : tw.terms.find? (fun t => decide (tw.hbox t = gtk_notebook_get_nth_page tw.notebook pos))
        = some tt := by
      injection h
    exact ⟨List.mem_of_find?_eq_some h2, by simpa using List.find?_some h2⟩

/-! ## Preservation of the notebook guarantees -/

theorem real_remove_ok (nb : GtkNotebook) (i : Nat) (hi : i < nb.children.length)
    (hok : notebook_ok nb) : notebook_ok (gtk_notebook_real_remove nb i) := by
  obtain ⟨hnd, h0, hcur⟩ := hok
  refine ⟨(List.eraseIdx_sublist _ _).nodup hnd,
    fun hm => h0 (List.mem_of_mem_eraseIdx hm), ?_⟩
  intro hne
  have hlen : 2 ≤ nb.children.length := by
    have h1 : (nb.children.eraseIdx i).length ≠ 0 := fun e => hne (List.length_eq_zero.mp e)
    rw [List.length_eraseIdx, if_pos hi] at h1
    omega
  have hcm : nb.cur_page ∈ nb.children := hcur (by intro e; simp [e] at hi)
  show (if nb.cur_page = nb.children.getD i 0 then
      (if 0 < i then nb.children.getD (i - 1) 0 else nb.children.getD (i + 1) 0)
    else nb.cur_page) ∈ nb.children.eraseIdx i
  rw [List.getD_eq_getElem _ _ hi]
  split
  · split
    · rename_i hpos
      have hj : i - 1 < nb.children.length := by omega
      rw [List.getD_eq_getElem _ _ hj]
      exact List.mem_eraseIdx_iff_getElem.mpr ⟨i - 1, hj, by omega, rfl⟩
    · rename_i hpos
      have hj : i + 1 < nb.children.length := by omega
      rw [List.getD_eq_getElem _ _ hj]
      exact List.mem_eraseIdx_iff_getElem.mpr ⟨i + 1, hj, by omega, rfl⟩
  · rename_i hneq
    obtain ⟨j, hj, hje⟩ := List.getElem_of_mem hcm
    refine List.mem_eraseIdx_iff_getElem.mpr ⟨j, hj, ?_, hje⟩
    intro e
    subst e
    exact hneq hje.symm

theorem remove_page_ok (nb : GtkNotebook) (p : Int) (hok : notebook_ok nb) :
    notebook_ok (gtk_notebook_remove_page nb p) := by
  unfold gtk_notebook_remove_page
  split
  · rename_i i hnode
    exact real_remove_ok nb i (notebook_node_lt nb p i hnode) hok
  · exact hok

theorem remove_page_length (nb : GtkNotebook) (p : Int) (i : Nat)
    (h : notebook_node nb p = some i) :
    (gtk_notebook_remove_page nb p).children.length + 1 = nb.children.length := by
  have hi := notebook_node_lt nb p i h
  simp only [gtk_notebook_remove_page, h, gtk_notebook_real_remove, List.length_eraseIdx,
    if_pos hi]
  omega

theorem hide_if_single_children (nb : GtkNotebook) :
    (if gtk_notebook_get_n_pages nb = 1 then gtk_notebook_set_show_tabs nb false
      else nb).children = nb.children := by
  split <;> rfl

theorem hide_if_single_ok (nb : GtkNotebook) (hok : notebook_ok nb) :
    notebook_ok (if gtk_notebook_get_n_pages nb = 1 then gtk_notebook_set_show_tabs nb false
      else nb) := by
  split
  · exact hok
  · exact hok

/-! ## Facts about the window invariant -/

theorem window_ok_length (tw : tilda_window) (hok : window_ok tw) :
    tw.terms.length = tw.notebook.children.length := by
  have := hok.2.length_eq
  simpa using this

theorem window_ok_terms_nodup (tw : tilda_window) (hok : window_ok tw) :
    tw.terms.Nodup :=
  List.Nodup.of_map tw.hbox (hok.2.nodup_iff.mpr hok.1.1)

theorem window_ok_hbox_mem (tw : tilda_window) (hok : window_ok tw) (tt : Ptr)
    (hmem : tt ∈ tw.terms) : tw.hbox tt ∈ tw.notebook.children :=
  hok.2.mem_iff.mp (List.mem_map_of_mem tw.hbox hmem)

theorem window_ok_inj (tw : tilda_window) (hok : window_ok tw) (tt : Ptr)
    (hmem : tt ∈ tw.terms) : ∀ x ∈ tw.terms, tw.hbox x = tw.hbox tt → x = tt :=
  fun _ hx e => List.inj_on_of_nodup_map (hok.2.nodup_iff.mpr hok.1.1) hx hmem e

/-! ## Facts about `close_tab` -/

theorem close_tab_of_few_pages (tw : tilda_window) (tt : Ptr)
    (h : gtk_notebook_get_n_pages tw.notebook < 2) : close_tab tw tt = clean_up tw := by
  simp [close_tab, h]

theorem close_tab_terms (tw : tilda_window) (tt : Ptr)
    (h : ¬ gtk_notebook_get_n_pages tw.notebook < 2) :
    (close_tab tw tt).terms = tw.terms.erase tt := by
  simp [close_tab, h, g_list_remove]

theorem close_tab_hbox (tw : tilda_window) (tt : Ptr) :
    (close_tab tw tt).hbox = tw.hbox := by
  unfold close_tab
  split <;> rfl

theorem close_tab_torn_down (tw : tilda_window) (tt : Ptr)
    (h : ¬ gtk_notebook_get_n_pages tw.notebook < 2) :
    (close_tab tw tt).torn_down = tw.torn_down := by
  simp [close_tab, h]

theorem close_tab_children (tw : tilda_window) (tt : Ptr)
    (h : ¬ gtk_notebook_get_n_pages tw.notebook < 2) :
    (close_tab tw tt).notebook.children
      = (gtk_notebook_remove_page tw.notebook
          (gtk_notebook_page_num tw.notebook (tw.hbox tt))).children := by
  simp only [close_tab, h, if_false]
  exact hide_if_single_children _

theorem close_tab_show_tabs_single (tw : tilda_window) (tt : Ptr)
    (h : ¬ gtk_notebook_get_n_pages tw.notebook < 2)
    (h1 : (close_tab tw tt).notebook.children.length = 1) :
    (close_tab tw tt).notebook.show_tabs = false := by
  rw [close_tab_children tw tt h] at h1
  have hn : gtk_notebook_get_n_pages (gtk_notebook_remove_page tw.notebook
      (gtk_notebook_page_num tw.notebook (tw.hbox tt))) = 1 := by
    simp [gtk_notebook_get_n_pages, h1]
  simp only [close_tab, h, if_false, hn, if_true, gtk_notebook_set_show_tabs]

theorem close_tab_show_tabs_many (tw : tilda_window) (tt : Ptr)
    (h : ¬ gtk_notebook_get_n_pages tw.notebook < 2)
    (h1 : (close_tab tw tt).notebook.children.length ≠ 1) :
    (close_tab tw tt).notebook.show_tabs = tw.notebook.show_tabs := by
  rw [close_tab_children tw tt h] at h1
  have hn : ¬ gtk_notebook_get_n_pages (gtk_notebook_remove_page tw.notebook
      (gtk_notebook_page_num tw.notebook (tw.hbox tt))) = 1 := by
    simpa [gtk_notebook_get_n_pages] using h1
  simp only [close_tab, h, if_false, hn, remove_page_show_tabs]

theorem close_tab_notebook_ok (tw : tilda_window) (tt : Ptr)
    (h : ¬ gtk_notebook_get_n_pages tw.notebook < 2) (hok : notebook_ok tw.notebook) :
    notebook_ok (close_tab tw tt).notebook := by
  simp only [close_tab, h, if_false]
  exact hide_if_single_ok _ (remove_page_ok _ _ hok)

/-! ## Facts about `close_current_tab` -/

theorem close_current_tab_of_few_pages (tw : tilda_window)
    (h : gtk_notebook_get_n_pages tw.notebook < 2) :
    close_current_tab tw = Except.ok (clean_up tw) := by
  simp [close_current_tab, h]

theorem close_current_tab_of_find (tw : tilda_window) (tt : Ptr)
    (hok : notebook_ok tw.notebook)
    (hfind : find_tt_in_g_list tw (gtk_notebook_get_current_page tw.notebook)
      = Except.ok (some tt)) :
    close_current_tab tw = Except.ok (close_tab tw tt) := by
  by_cases h : gtk_notebook_get_n_pages tw.notebook < 2
  · rw [close_current_tab_of_few_pages tw h, close_tab_of_few_pages tw tt h]
  · have hne := children_ne_nil_of_two_pages tw.notebook h
    have hcur := current_page_eq tw.notebook hok hne
    have hpage := (find_tt_in_g_list_some tw _ tt hfind).2
    rw [hcur, nth_page_page_num tw.notebook _ (hok.2.2 hne)] at hpage
    have hpos : gtk_notebook_page_num tw.notebook (tw.hbox tt)
        = gtk_notebook_get_current_page tw.notebook := by rw [hpage, hcur]
    unfold close_current_tab close_tab
    simp only [h, if_false, hfind, hpos]

theorem find_current_exists (tw : tilda_window) (hok : window_ok tw)
    (hne : tw.notebook.children ≠ []) :
    ∃ tt, tt ∈ tw.terms ∧ tw.hbox tt = tw.notebook.cur_page ∧
      find_tt_in_g_list tw (gtk_notebook_get_current_page tw.notebook)
        = Except.ok (some tt) := by
  have hcm : tw.notebook.cur_page ∈ tw.notebook.children := hok.1.2.2 hne
  have hpage : gtk_notebook_get_nth_page tw.notebook
      (gtk_notebook_get_current_page tw.notebook) = tw.notebook.cur_page := by
    rw [current_page_eq tw.notebook hok.1 hne, nth_page_page_num tw.notebook _ hcm]
  have hterms : tw.terms ≠ [] := by
    intro e
    have hl := window_ok_length tw hok
    rw [e] at hl
    exact hne (List.length_eq_zero.mp hl.symm)
  obtain ⟨t, ht, hte⟩ := List.mem_map.mp (hok.2.mem_iff.mpr hcm)
  have hsome : (tw.terms.find? fun x => decide (tw.hbox x = tw.notebook.cur_page)).isSome
      = true := List.find?_isSome.mpr ⟨t, ht, by simpa using hte⟩
  obtain ⟨tt, htt⟩ := Option.isSome_iff_exists.mp hsome
  refine ⟨tt, List.mem_of_find?_eq_some htt, by simpa using List.find?_some htt, ?_⟩
  unfold find_tt_in_g_list g_list_first
  rw [find_tt_loop_eq_find _ _ _ hterms, hpage, htt]

/-! ## Closing an entry of a well-formed window -/

theorem few_pages_iff_length (tw : tilda_window) :
    gtk_notebook_get_n_pages tw.notebook < 2 ↔ tw.notebook.children.length < 2 := by
  unfold gtk_notebook_get_n_pages
  omega

theorem close_tab_children_of_mem (tw : tilda_window) (tt : Ptr) (hok : window_ok tw)
    (hn : ¬ gtk_notebook_get_n_pages tw.notebook < 2) (hmem : tt ∈ tw.terms) :
    (close_tab tw tt).notebook.children = tw.notebook.children.erase (tw.hbox tt) := by
  rw [close_tab_children tw tt hn]
  exact remove_page_children_of_mem _ _ (window_ok_hbox_mem tw hok tt hmem)

theorem close_tab_window_ok (tw : tilda_window) (tt : Ptr) (hok : window_ok tw)
    (hn : ¬ gtk_notebook_get_n_pages tw.notebook < 2) (hmem : tt ∈ tw.terms) :
    window_ok (close_tab tw tt) := by
  refine ⟨close_tab_notebook_ok tw tt hn hok.1, ?_⟩
  rw [close_tab_children_of_mem tw tt hok hn hmem, close_tab_terms tw tt hn,
    close_tab_hbox, map_erase_of_inj_on tw.hbox tt tw.terms (window_ok_inj tw hok tt hmem)]
  exact hok.2.erase _

theorem close_tab_single_hides (tw : tilda_window) (tt : Ptr) (hok : window_ok tw)
    (h1 : (close_tab tw tt).terms.length = 1) :
    (close_tab tw tt).notebook.show_tabs = false := by
  by_cases hn : gtk_notebook_get_n_pages tw.notebook < 2
  · rw [close_tab_of_few_pages tw tt hn] at h1
    simp [clean_up] at h1
  · have hlen := window_ok_length tw hok
    have h2 := two_le_length_of_two_pages tw.notebook hn
    by_cases hmem : tt ∈ tw.terms
    · have hok2 := close_tab_window_ok tw tt hok hn hmem
      have hlen2 := window_ok_length _ hok2
      exact close_tab_show_tabs_single tw tt hn (by omega)
    · rw [close_tab_terms tw tt hn, List.erase_of_not_mem hmem] at h1
      omega

/-! ## One close request under the sequence invariant -/

theorem close_inv_of_window_ok (tw : tilda_window) (hok : window_ok tw)
    (h1 : 1 ≤ tw.terms.length) : close_inv tw :=
  ⟨hok.1, by rw [window_ok_length tw hok], h1⟩

theorem close_tab_inv (tw : tilda_window) (tt : Ptr) (h : close_inv tw) :
    (close_tab tw tt).torn_down = true ∨ close_inv (close_tab tw tt) := by
  by_cases hn : gtk_notebook_get_n_pages tw.notebook < 2
  · left
    rw [close_tab_of_few_pages tw tt hn]
    rfl
  · right
    obtain ⟨hnb, hle, _⟩ := h
    have h2 := two_le_length_of_two_pages tw.notebook hn
    have hne := children_ne_nil_of_two_pages tw.notebook hn
    have hpages : (close_tab tw tt).notebook.children.length + 1
        = tw.notebook.children.length := by
      rw [close_tab_children tw tt hn]
      by_cases hm : tw.hbox tt ∈ tw.notebook.children
      · exact remove_page_length _ _ _ (notebook_node_page_num_of_mem _ _ hm)
      · exact remove_page_length _ _ _ (notebook_node_page_num_of_not_mem _ _ hm hne)
    have hterms : tw.terms.length ≤ (close_tab tw tt).terms.length + 1 := by
      rw [close_tab_terms tw tt hn]
      by_cases hm : tt ∈ tw.terms
      · rw [List.length_erase_of_mem hm]
        omega
      · rw [List.erase_of_not_mem hm]
        omega
    exact ⟨close_tab_notebook_ok tw tt hn hnb, by omega, by omega⟩

theorem close_current_tab_inv (tw : tilda_window) (h : close_inv tw) :
    ∃ tw1, close_current_tab tw = Except.ok tw1 ∧
      (tw1.torn_down = true ∨ close_inv tw1) := by
  by_cases hn : gtk_notebook_get_n_pages tw.notebook < 2
  · exact ⟨clean_up tw, close_current_tab_of_few_pages tw hn, Or.inl rfl⟩
  · have hterms : tw.terms ≠ [] := by
      intro e
      have := h.2.2
      simp [e] at this
    have hfind : find_tt_in_g_list tw (gtk_notebook_get_current_page tw.notebook)
        = Except.ok (tw.terms.find? fun t => decide (tw.hbox t
            = gtk_notebook_get_nth_page tw.notebook
                (gtk_notebook_get_current_page tw.notebook))) := by
      unfold find_tt_in_g_list g_list_first
      exact find_tt_loop_eq_find _ _ _ hterms
    cases hres : tw.terms.find? fun t => decide (tw.hbox t
            = gtk_notebook_get_nth_page tw.notebook
                (gtk_notebook_get_current_page tw.notebook)) with
    | none =>
      rw [hres] at hfind
      refine ⟨tw, ?_, Or.inr h⟩
      simp only [close_current_tab, hn, if_false, hfind]
    | some tt =>
      rw [hres] at hfind
      exact ⟨close_tab tw tt, close_current_tab_of_find tw tt h.1 hfind,
        close_tab_inv tw tt h⟩

theorem run_closes_inv : ∀ (ops : List CloseOp) (tw : tilda_window),
    (tw.torn_down = true ∨ close_inv tw) →
    ∃ tw1, run_closes ops tw = Except.ok tw1 ∧ (tw1.torn_down = true ∨ close_inv tw1)
  | [], tw, h => ⟨tw, rfl, h⟩
  | op :: ops, tw, h => by
    by_cases ht : tw.torn_down = true
    · exact ⟨tw, by simp [run_closes, ht], Or.inl ht⟩
    · have hinv : close_inv tw := h.resolve_left ht
      have hstep : ∃ tw1, dispatch tw op = Except.ok tw1 ∧
          (tw1.torn_down = true ∨ close_inv tw1) := by
        cases op with
        | close_tab tt => exact ⟨close_tab tw tt, rfl, close_tab_inv tw tt hinv⟩
        | close_current_tab => exact close_current_tab_inv tw hinv
      obtain ⟨tw1, hd, h1⟩ := hstep
      obtain ⟨tw2, hr, h2⟩ := run_closes_inv ops tw1 h1
      refine ⟨tw2, ?_, h2⟩
      simp only [run_closes, ht, hd]
      simpa using hr

/-! ## The tab lookup -/

/-- C10: on a non-empty `terms` list `find_tt_in_g_list` finishes without a
fault and returns the first entry, in list order, whose `hbox` is the notebook's
page at `pos`; it returns `NULL` exactly when no entry has that page, and a
returned entry is a member of `terms`, preceded only by entries with another
page. -/
theorem find_tt_in_g_list_first_match (tw : tilda_window) (pos : Int)
    (hne : tw.terms ≠ []) :
    find_tt_in_g_list tw pos
        = Except.ok (tw.terms.find? fun t =>
            decide (tw.hbox t = gtk_notebook_get_nth_page tw.notebook pos)) ∧
      (find_tt_in_g_list tw pos = Except.ok none ↔
        ∀ t ∈ tw.terms, tw.hbox t ≠ gtk_notebook_get_nth_page tw.notebook pos) ∧
      (∀ tt, find_tt_in_g_list tw pos = Except.ok (some tt) →
        tt ∈ tw.terms ∧ tw.hbox tt = gtk_notebook_get_nth_page tw.notebook pos ∧
        ∃ before after, tw.terms = before ++ tt :: after ∧
          ∀ t ∈ before, tw.hbox t ≠ gtk_notebook_get_nth_page tw.notebook pos) := by
  have heq : find_tt_in_g_list tw pos
      = Except.ok (tw.terms.find? fun t =>
          decide (tw.hbox t = gtk_notebook_get_nth_page tw.notebook pos)) := by
    unfold find_tt_in_g_list g_list_first
    exact find_tt_loop_eq_find _ _ _ hne
  refine ⟨heq, ?_, ?_⟩
  · rw [heq]
    constructor
    · intro h t ht
      have h2 := List.find?_eq_none.mp (Except.ok.inj h) t ht
      simpa using h2
    · intro h
      congr 1
      exact List.find?_eq_none.mpr (fun t ht => by simpa using h t ht)
  · intro tt h
    rw [heq] at h
    have h2 := Except.ok.inj h
    obtain ⟨hp, before, after, hsplit, hbefore⟩ := List.find?_eq_some.mp h2
    refine ⟨List.mem_of_find?_eq_some h2, by simpa using hp, before, after, hsplit, ?_⟩
    intro t ht
    simpa using hbefore t ht

/-- Witness for C10: with entries 1, 2, 3 and pages 101, 102, 103 the lookup at
position 1 is evaluated on a non-empty list. -/
theorem find_tt_in_g_list_first_match_witness :
    (sample_window [1, 2, 3] [101, 102, 103]).terms ≠ [] ∧
      find_tt_in_g_list (sample_window [1, 2, 3] [101, 102, 103]) 1
        = Except.ok ((sample_window [1, 2, 3] [101, 102, 103]).terms.find? fun t =>
            decide ((sample_window [1, 2, 3] [101, 102, 103]).hbox t
              = gtk_notebook_get_nth_page
                  (sample_window [1, 2, 3] [101, 102, 103]).notebook 1)) :=
  ⟨by decide,
    (find_tt_in_g_list_first_match (sample_window [1, 2, 3] [101, 102, 103]) 1
      (by decide)).1⟩

/-! ## The window invariant is established and kept -/

theorem append_page_ok (nb : GtkNotebook) (page : GtkWidget) (hok : notebook_ok nb)
    (hnew : page ∉ nb.children) (h0 : page ≠ 0) :
    notebook_ok (gtk_notebook_append_page nb page) := by
  obtain ⟨hnd, hz, hcur⟩ := hok
  refine ⟨?_, ?_, fun _ => ?_⟩
  · show (nb.children ++ [page]).Nodup
    rw [List.nodup_append]
    exact ⟨hnd, List.nodup_singleton _, by
      intro a ha hb
      rw [List.mem_singleton] at hb
      exact hnew (hb ▸ ha)⟩
  · show 0 ∉ nb.children ++ [page]
    simp only [List.mem_append, List.mem_singleton, not_or]
    exact ⟨hz, fun e => h0 e.symm⟩
  · show (if nb.children = [] then page else nb.cur_page) ∈ nb.children ++ [page]
    split
    · simp
    · rename_i hne
      exact List.mem_append_left _ (hcur hne)

theorem add_tab_window_ok (tw : tilda_window) (tt : Ptr) (page : GtkWidget)
    (hok : window_ok tw) (hfresh : tt ∉ tw.terms) (hnew : page ∉ tw.notebook.children)
    (h0 : page ≠ 0) : window_ok (add_tab (some tt) page tw) := by
  refine ⟨append_page_ok _ _ hok.1 hnew h0, ?_⟩
  show ((tw.terms ++ [tt]).map (Function.update tw.hbox tt page)).Perm
    (tw.notebook.children ++ [page])
  have hmap : tw.terms.map (Function.update tw.hbox tt page) = tw.terms.map tw.hbox := by
    apply List.map_congr_left
    intro x hx
    have hne : x ≠ tt := fun e => hfresh (e ▸ hx)
    simp [Function.update, hne]
  rw [List.map_append, hmap]
  simp only [List.map_cons, List.map_nil, Function.update_same]
  exact hok.2.append_right _

theorem tab_pos_children (v : Int) (nb : GtkNotebook) :
    (init_tilda_window_tab_pos v nb).children = nb.children ∧
      (init_tilda_window_tab_pos v nb).cur_page = nb.cur_page := by
  unfold init_tilda_window_tab_pos
  split_ifs <;> exact ⟨rfl, rfl⟩

theorem init_tilda_window_tabs (cfg : Config) (env : Env) (tw : tilda_window)
    (tt : Ptr) (page : GtkWidget) :
    (init_tilda_window cfg env tw tt page).2.terms = [tt] ∧
      (init_tilda_window cfg env tw tt page).2.notebook.children = [page] ∧
      (init_tilda_window cfg env tw tt page).2.notebook.cur_page = page ∧
      (init_tilda_window cfg env tw tt page).2.hbox tt = page := by
  unfold init_tilda_window
  cases env.bind_ok <;> cases cfg.hidden <;> cases env.icon_loaded <;>
    cases cfg.pinned <;>
    simp [init_tilda_terminal, g_list_append, gtk_notebook_append_page, pull,
      tab_pos_children, gtk_notebook_set_show_border, gtk_notebook_set_homogeneous_tabs,
      gtk_notebook_new]

theorem init_tilda_window_window_ok (cfg : Config) (env : Env) (tw : tilda_window)
    (tt : Ptr) (page : GtkWidget) (h0 : page ≠ 0) :
    window_ok (init_tilda_window cfg env tw tt page).2 := by
  obtain ⟨ht, hc, hp, hh⟩ := init_tilda_window_tabs cfg env tw tt page
  refine ⟨⟨?_, ?_, fun _ => ?_⟩, ?_⟩
  · rw [hc]
    exact List.nodup_singleton _
  · rw [hc]
    simpa using h0.symm
  · rw [hc, hp]
    simp
  · rw [ht, hc]
    simp [hh]

/-! ## Closing tabs -/

/-- C3: in a well-formed window with at least two tabs, `close_tab` on an entry
`tt` of `terms` removes exactly that entry (the list loses one element, `tt` is
gone, every other entry stays, in the original relative order), removes its page
from the notebook, triggers no teardown, leaves the tab-strip visibility as it
was when more than one tab remains, and keeps the window well-formed. -/
theorem close_tab_removes_entry (tw : tilda_window) (tt : Ptr) (hok : window_ok tw)
    (h2 : 2 ≤ tw.terms.length) (hmem : tt ∈ tw.terms) :
    (close_tab tw tt).terms = tw.terms.erase tt ∧
      (close_tab tw tt).terms.length + 1 = tw.terms.length ∧
      tt ∉ (close_tab tw tt).terms ∧
      (∀ x ∈ tw.terms, x ≠ tt → x ∈ (close_tab tw tt).terms) ∧
      (close_tab tw tt).terms.Sublist tw.terms ∧
      (close_tab tw tt).notebook.children = tw.notebook.children.erase (tw.hbox tt) ∧
      (close_tab tw tt).torn_down = tw.torn_down ∧
      (1 < (close_tab tw tt).terms.length →
        (close_tab tw tt).notebook.show_tabs = tw.notebook.show_tabs) ∧
      window_ok (close_tab tw tt) := by
  have hlen := window_ok_length tw hok
  have hn : ¬ gtk_notebook_get_n_pages tw.notebook < 2 := by
    rw [few_pages_iff_length]
    omega
  have hnd := window_ok_terms_nodup tw hok
  have hterms := close_tab_terms tw tt hn
  have hok2 := close_tab_window_ok tw tt hok hn hmem
  have hlen2 := window_ok_length _ hok2
  refine ⟨hterms, ?_, ?_, ?_, ?_, close_tab_children_of_mem tw tt hok hn hmem,
    close_tab_torn_down tw tt hn, ?_, hok2⟩
  · rw [hterms, List.length_erase_of_mem hmem]
    omega
  · rw [hterms]
    intro hm
    exact ((hnd.mem_erase_iff).mp hm).1 rfl
  · intro x hx hne
    rw [hterms]
    exact (List.mem_erase_of_ne hne).mpr hx
  · rw [hterms]
    exact List.erase_sublist _ _
  · intro hgt
    exact close_tab_show_tabs_many tw tt hn (by omega)

/-- Witness for C3: tabs A, B, C (entries 1, 2, 3); closing B leaves A, C and the
tab strip stays shown. -/
theorem close_tab_removes_entry_witness :
    window_ok (sample_window [1, 2, 3] [101, 102, 103]) ∧
      2 ≤ (sample_window [1, 2, 3] [101, 102, 103]).terms.length ∧
      2 ∈ (sample_window [1, 2, 3] [101, 102, 103]).terms ∧
      (close_tab (sample_window [1, 2, 3] [101, 102, 103]) 2).terms = [1, 3] ∧
      (close_tab (sample_window [1, 2, 3] [101, 102, 103]) 2).notebook.children
        = [101, 103] ∧
      (close_tab (sample_window [1, 2, 3] [101, 102, 103]) 2).notebook.show_tabs = true :=
  have h := close_tab_removes_entry (sample_window [1, 2, 3] [101, 102, 103]) 2
    (by decide) (by decide) (by decide)
  ⟨by decide, by decide, by decide, h.1.trans (by decide),
    h.2.2.2.2.2.1.trans (by decide), (h.2.2.2.2.2.2.2.1 (by decide)).trans (by decide)⟩

/-- C5: in a well-formed window, whenever `close_tab` or `close_current_tab`
leaves `terms` with exactly one entry, the tab strip is hidden afterwards
(`show_tabs` is `FALSE`); `close_current_tab` completes without a fault. -/
theorem single_tab_hides_tab_strip (tw : tilda_window) (hok : window_ok tw) :
    (∀ tt, (close_tab tw tt).terms.length = 1 →
        (close_tab tw tt).notebook.show_tabs = false) ∧
      ∃ tw1, close_current_tab tw = Except.ok tw1 ∧
        (tw1.terms.length = 1 → tw1.notebook.show_tabs = false) := by
  refine ⟨fun tt h1 => close_tab_single_hides tw tt hok h1, ?_⟩
  by_cases hn : gtk_notebook_get_n_pages tw.notebook < 2
  · refine ⟨clean_up tw, close_current_tab_of_few_pages tw hn, ?_⟩
    intro h1
    simp [clean_up] at h1
  · obtain ⟨tt, _, _, hfind⟩ :=
      find_current_exists tw hok (children_ne_nil_of_two_pages tw.notebook hn)
    exact ⟨close_tab tw tt, close_current_tab_of_find tw tt hok.1 hfind,
      fun h1 => close_tab_single_hides tw tt hok h1⟩

/-- Witness for C5: two tabs with the tab strip shown; closing entry 2 leaves one
entry and hides the strip. -/
theorem single_tab_hides_tab_strip_witness :
    window_ok (sample_window [1, 2] [101, 102]) ∧
      (sample_window [1, 2] [101, 102]).notebook.show_tabs = true ∧
      (close_tab (sample_window [1, 2] [101, 102]) 2).terms.length = 1 ∧
      (close_tab (sample_window [1, 2] [101, 102]) 2).notebook.show_tabs = false :=
  ⟨by decide, by decide, by decide,
    (single_tab_hides_tab_strip (sample_window [1, 2] [101, 102]) (by decide)).1 2
      (by decide)⟩

/-- C9: `close_current_tab` does what `close_tab` does on the entry of the
current page: the same resulting state (tab list, notebook pages, tab-strip
visibility) and the same teardown decision.  This holds for the entry the lookup
finds for the current page, and, in a well-formed window, for the entry of
`terms` whose `hbox` is the current page. -/
theorem close_current_tab_eq_close_tab (tw : tilda_window) (tt : Ptr) :
    (notebook_ok tw.notebook →
        find_tt_in_g_list tw (gtk_notebook_get_current_page tw.notebook)
          = Except.ok (some tt) →
        close_current_tab tw = Except.ok (close_tab tw tt)) ∧
      (window_ok tw → tt ∈ tw.terms → tw.hbox tt = tw.notebook.cur_page →
        close_current_tab tw = Except.ok (close_tab tw tt)) := by
  refine ⟨fun hok hfind => close_current_tab_of_find tw tt hok hfind, ?_⟩
  intro hok hmem hpage
  have hne : tw.notebook.children ≠ [] := by
    intro e
    have hl := window_ok_length tw hok
    rw [e] at hl
    rw [List.length_eq_zero.mp hl] at hmem
    simp at hmem
  obtain ⟨t2, ht2, hp2, hfind⟩ := find_current_exists tw hok hne
  have heq : t2 = tt := window_ok_inj tw hok tt hmem t2 ht2 (hp2.trans hpage.symm)
  rw [heq] at hfind
  exact close_current_tab_of_find tw tt hok.1 hfind

/-- Witness for C9: three tabs, the first page current; `close_current_tab` is
`close_tab` on entry 1. -/
theorem close_current_tab_eq_close_tab_witness :
    window_ok (sample_window [1, 2, 3] [101, 102, 103]) ∧
      1 ∈ (sample_window [1, 2, 3] [101, 102, 103]).terms ∧
      (sample_window [1, 2, 3] [101, 102, 103]).hbox 1
        = (sample_window [1, 2, 3] [101, 102, 103]).notebook.cur_page ∧
      close_current_tab (sample_window [1, 2, 3] [101, 102, 103])
        = Except.ok (close_tab (sample_window [1, 2, 3] [101, 102, 103]) 1) :=
  ⟨by decide, by decide, by decide,
    (close_current_tab_eq_close_tab (sample_window [1, 2, 3] [101, 102, 103]) 1).2
      (by decide) (by decide) (by decide)⟩

/-- C2 (counterexample): a close request whose target matches no entry is not
always a no-op.  (1) One tab, `close_tab` on the foreign entry 9 (page 109):
teardown is triggered.  (2) Two tabs, `close_tab` on the foreign entry 9:
`gtk_notebook_page_num` yields `-1`, the last page is removed from the notebook
and the tab strip is hidden.  (3) One page (105) that no entry refers to:
`close_current_tab` triggers teardown.  (4) Two pages and an empty `terms`:
`close_current_tab` dereferences the `NULL` list in the lookup. -/
theorem close_without_match_counterexample :
    ((sample_window [1] [101]).hbox 9
          ∉ (sample_window [1] [101]).terms.map (sample_window [1] [101]).hbox ∧
        (sample_window [1] [101]).torn_down = false ∧
        (close_tab (sample_window [1] [101]) 9).torn_down = true) ∧
      ((sample_window [1, 2] [101, 102]).hbox 9
          ∉ (sample_window [1, 2] [101, 102]).terms.map
              (sample_window [1, 2] [101, 102]).hbox ∧
        (sample_window [1, 2] [101, 102]).notebook.children = [101, 102] ∧
        (close_tab (sample_window [1, 2] [101, 102]) 9).notebook.children = [101] ∧
        (sample_window [1, 2] [101, 102]).notebook.show_tabs = true ∧
        (close_tab (sample_window [1, 2] [101, 102]) 9).notebook.show_tabs = false) ∧
      (gtk_notebook_get_nth_page (sample_window [1] [105]).notebook
            (gtk_notebook_get_current_page (sample_window [1] [105]).notebook)
          ∉ (sample_window [1] [105]).terms.map (sample_window [1] [105]).hbox ∧
        (sample_window [1] [105]).torn_down = false ∧
        close_current_tab (sample_window [1] [105])
          = Except.ok (clean_up (sample_window [1] [105])) ∧
        (clean_up (sample_window [1] [105])).torn_down = true) ∧
      close_current_tab (sample_window [] [105, 106]) = Except.error Fault.null_deref :=
  ⟨⟨by decide, by decide, by decide⟩,
    ⟨by decide, by decide, by decide, by decide, by decide⟩,
    ⟨by decide, by decide, rfl, rfl⟩, rfl⟩

/-- C2 (amended): when the notebook holds at least two pages, `close_current_tab`
is a no-op if no entry of a non-empty `terms` has the current page (the returned
state is the state it was given, so tab list, pages, tab-strip visibility and
teardown flag are unchanged), and `close_tab` on a target whose page matches no
entry leaves the tab list unchanged and triggers no teardown.  With fewer than
two pages both operations trigger teardown, whatever the target. -/
theorem close_without_match (tw : tilda_window) :
    (2 ≤ gtk_notebook_get_n_pages tw.notebook →
        (tw.terms ≠ [] →
          (∀ p ∈ tw.terms, tw.hbox p ≠ gtk_notebook_get_nth_page tw.notebook
            (gtk_notebook_get_current_page tw.notebook)) →
          close_current_tab tw = Except.ok tw) ∧
        (∀ tt, (∀ p ∈ tw.terms, tw.hbox p ≠ tw.hbox tt) →
          (close_tab tw tt).terms = tw.terms ∧
            (close_tab tw tt).torn_down = tw.torn_down)) ∧
      (gtk_notebook_get_n_pages tw.notebook < 2 →
        (∀ tt, close_tab tw tt = clean_up tw) ∧
          close_current_tab tw = Except.ok (clean_up tw)) := by
  refine ⟨fun h2 => ?_, fun hn =>
    ⟨fun tt => close_tab_of_few_pages tw tt hn, close_current_tab_of_few_pages tw hn⟩⟩
  have hn : ¬ gtk_notebook_get_n_pages tw.notebook < 2 := not_lt.mpr h2
  refine ⟨fun hne hno => ?_, fun tt hno => ?_⟩
  · have hfind : find_tt_in_g_list tw (gtk_notebook_get_current_page tw.notebook)
        = Except.ok none := by
      unfold find_tt_in_g_list g_list_first
      rw [find_tt_loop_eq_find _ _ _ hne]
      congr 1
      exact List.find?_eq_none.mpr (fun t ht => by simpa using hno t ht)
    simp only [close_current_tab, hn, if_false, hfind]
  · have hmem : tt ∉ tw.terms := fun hm => hno tt hm rfl
    exact ⟨by rw [close_tab_terms tw tt hn, List.erase_of_not_mem hmem],
      close_tab_torn_down tw tt hn⟩

/-- Witness for C2 (amended): two pages 105, 106 and the single entry 1 (page
101): `close_current_tab` returns the state unchanged, and `close_tab` on the
foreign entry 9 keeps the tab list. -/
theorem close_without_match_witness :
    2 ≤ gtk_notebook_get_n_pages (sample_window [1] [105, 106]).notebook ∧
      (sample_window [1] [105, 106]).terms ≠ [] ∧
      close_current_tab (sample_window [1] [105, 106])
        = Except.ok (sample_window [1] [105, 106]) ∧
      (close_tab (sample_window [1] [105, 106]) 9).terms
        = (sample_window [1] [105, 106]).terms :=
  have h := (close_without_match (sample_window [1] [105, 106])).1 (by decide)
  ⟨by decide, by decide, h.1 (by decide) (by decide), (h.2 9 (by decide)).1⟩

/-- C4: in a well-formed window with exactly one tab, `close_tab` (on any target)
and `close_current_tab` call `clean_up` instead of removing the entry, after
which the teardown flag is set and no entry remains; and starting from a
well-formed window with at least one tab, every sequence of close requests
completes in a state where an empty `terms` implies that teardown was invoked. -/
theorem last_tab_triggers_teardown (tw : tilda_window) (hok : window_ok tw) :
    (tw.terms.length = 1 →
        (∀ tt, close_tab tw tt = clean_up tw) ∧
          close_current_tab tw = Except.ok (clean_up tw) ∧
          (clean_up tw).torn_down = true ∧ (clean_up tw).terms = []) ∧
      (1 ≤ tw.terms.length → ∀ ops : List CloseOp,
        ∃ tw1, run_closes ops tw = Except.ok tw1 ∧
          (tw1.terms.length = 0 → tw1.torn_down = true)) := by
  constructor
  · intro h1
    have hn : gtk_notebook_get_n_pages tw.notebook < 2 := by
      rw [few_pages_iff_length, ← window_ok_length tw hok]
      omega
    exact ⟨fun tt => close_tab_of_few_pages tw tt hn,
      close_current_tab_of_few_pages tw hn, rfl, rfl⟩
  · intro h1 ops
    obtain ⟨tw1, hr, hinv⟩ :=
      run_closes_inv ops tw (Or.inr (close_inv_of_window_ok tw hok h1))
    refine ⟨tw1, hr, fun h0 => ?_⟩
    rcases hinv with ht | hi
    · exact ht
    · have := hi.2.2
      omega

/-- Witness for C4: the only tab A (entry 1) is closed: teardown, no entry
remains; and a run of three close requests on tabs A, B, C ends torn down. -/
theorem last_tab_triggers_teardown_witness :
    window_ok (sample_window [1] [101]) ∧
      (sample_window [1] [101]).terms.length = 1 ∧
      close_tab (sample_window [1] [101]) 1 = clean_up (sample_window [1] [101]) ∧
      (clean_up (sample_window [1] [101])).torn_down = true ∧
      (clean_up (sample_window [1] [101])).terms = [] ∧
      ∃ tw1, run_closes [CloseOp.close_current_tab, CloseOp.close_tab 3,
            CloseOp.close_current_tab] (sample_window [1, 2, 3] [101, 102, 103])
          = Except.ok tw1 ∧ (tw1.terms.length = 0 → tw1.torn_down = true) :=
  have h := (last_tab_triggers_teardown (sample_window [1] [101]) (by decide)).1
    (by decide)
  ⟨by decide, by decide, h.1 1, h.2.2.1, h.2.2.2,
    (last_tab_triggers_teardown (sample_window [1, 2, 3] [101, 102, 103])
      (by decide)).2 (by decide) _⟩

/-! ## Adding a tab -/

/-- C8: when the allocation succeeds `add_tab` appends the new entry, so `terms`
grows by exactly one; when `malloc` returns `NULL` the window state is returned
unchanged. -/
theorem add_tab_length (tw : tilda_window) (tt : Ptr) (page : GtkWidget) :
    (add_tab (some tt) page tw).terms = tw.terms ++ [tt] ∧
      (add_tab (some tt) page tw).terms.length = tw.terms.length + 1 ∧
      add_tab none page tw = tw := by
  refine ⟨rfl, ?_, rfl⟩
  simp [add_tab, init_tilda_terminal, g_list_append]

/-! ## Window creation -/

/-- C6: the `tab_pos` switch of `init_tilda_window` sets the tab position to
top, bottom, left, right for 0, 1, 2, 3 and returns the notebook untouched for
every other integer; the window that `init_tilda_window` leaves has the tab
position this switch gives on the freshly created notebook, which for a bad
value is the one the notebook was created with. -/
theorem tab_pos_mapping (nb : GtkNotebook) (cfg : Config) (env : Env)
    (tw : tilda_window) (tt : Ptr) (page : GtkWidget) :
    (init_tilda_window_tab_pos 0 nb).tab_pos = GtkPositionType.GTK_POS_TOP ∧
      (init_tilda_window_tab_pos 1 nb).tab_pos = GtkPositionType.GTK_POS_BOTTOM ∧
      (init_tilda_window_tab_pos 2 nb).tab_pos = GtkPositionType.GTK_POS_LEFT ∧
      (init_tilda_window_tab_pos 3 nb).tab_pos = GtkPositionType.GTK_POS_RIGHT ∧
      (∀ v : Int, bad_tab_pos v → init_tilda_window_tab_pos v nb = nb) ∧
      (init_tilda_window cfg env tw tt page).2.notebook.tab_pos
        = (init_tilda_window_tab_pos cfg.tab_pos
            (gtk_notebook_set_homogeneous_tabs gtk_notebook_new true)).tab_pos ∧
      (bad_tab_pos cfg.tab_pos →
        (init_tilda_window cfg env tw tt page).2.notebook.tab_pos
          = gtk_notebook_new.tab_pos) := by
  have hbad : ∀ (v : Int) (n : GtkNotebook), bad_tab_pos v →
      init_tilda_window_tab_pos v n = n := by
    intro v n hv
    obtain ⟨h0, h1, h2, h3⟩ := hv
    simp [init_tilda_window_tab_pos, h0, h1, h2, h3]
  have hfinal : (init_tilda_window cfg env tw tt page).2.notebook.tab_pos
      = (init_tilda_window_tab_pos cfg.tab_pos
          (gtk_notebook_set_homogeneous_tabs gtk_notebook_new true)).tab_pos := by
    unfold init_tilda_window
    cases env.bind_ok <;> cases cfg.hidden <;> cases env.icon_loaded <;>
      cases cfg.pinned <;> rfl
  refine ⟨rfl, rfl, rfl, rfl, fun v hv => hbad v nb hv, hfinal, fun hv => ?_⟩
  rw [hfinal, hbad _ _ hv]
  rfl

/-- Witness for C6: `tab_pos = 7` is none of 0 .. 3 and leaves a bottom-tabbed
notebook as it was. -/
theorem tab_pos_mapping_witness :
    bad_tab_pos 7 ∧
      init_tilda_window_tab_pos 7
          (gtk_notebook_set_tab_pos gtk_notebook_new GtkPositionType.GTK_POS_BOTTOM)
        = gtk_notebook_set_tab_pos gtk_notebook_new GtkPositionType.GTK_POS_BOTTOM ∧
      (init_tilda_window (sample_config 7 false) (sample_env true true)
          (sample_window [] []) 1 101).2.notebook.tab_pos
        = gtk_notebook_new.tab_pos :=
  have h := tab_pos_mapping
    (gtk_notebook_set_tab_pos gtk_notebook_new GtkPositionType.GTK_POS_BOTTOM)
    (sample_config 7 false) (sample_env true true) (sample_window [] []) 1 101
  ⟨by decide, h.2.2.2.2.1 7 (by decide), h.2.2.2.2.2.2 (by decide)⟩

/-- C7: `init_tilda_window` returns exactly the result of the key binding: `FALSE`
when `tomboy_keybinder_bind` fails, and then the window is not visible and has
never been shown; `TRUE` when it succeeds, whatever `tab_pos` is and whether or
not the icon could be loaded. -/
theorem init_tilda_window_result (cfg : Config) (env : Env) (tw : tilda_window)
    (tt : Ptr) (page : GtkWidget) :
    (init_tilda_window cfg env tw tt page).1 = env.bind_ok ∧
      ((init_tilda_window cfg env tw tt page).1 = false ↔ env.bind_ok = false) ∧
      (env.bind_ok = false →
        (init_tilda_window cfg env tw tt page).2.window.visible = false ∧
          (init_tilda_window cfg env tw tt page).2.window.was_shown = false) := by
  have hret : (init_tilda_window cfg env tw tt page).1 = env.bind_ok := by
    unfold init_tilda_window
    cases env.bind_ok <;> cases cfg.hidden <;> rfl
  refine ⟨hret, by rw [hret], fun hb => ?_⟩
  unfold init_tilda_window
  rw [hb]
  cases env.icon_loaded <;> cases hc : env.rgba_colormap && env.composited <;>
    simp [initialize_alpha_mode, hc, init_tilda_terminal, gtk_window_new]

/-- Witness for C7: with a bad `tab_pos` and no icon, a failed bind gives `FALSE`
and a window that was never shown, a successful bind gives `TRUE`. -/
theorem init_tilda_window_result_witness :
    (sample_env false false).bind_ok = false ∧
      (init_tilda_window (sample_config 7 false) (sample_env false false)
          (sample_window [] []) 1 101).1 = false ∧
      (init_tilda_window (sample_config 7 false) (sample_env false false)
          (sample_window [] []) 1 101).2.window.visible = false ∧
      (init_tilda_window (sample_config 7 false) (sample_env false false)
          (sample_window [] []) 1 101).2.window.was_shown = false ∧
      (init_tilda_window (sample_config 7 false) (sample_env false true)
          (sample_window [] []) 1 101).1 = true :=
  have h := init_tilda_window_result (sample_config 7 false) (sample_env false false)
    (sample_window [] []) 1 101
  ⟨by decide, h.1.trans (by decide), (h.2.2 (by decide)).1, (h.2.2 (by decide)).2,
    (init_tilda_window_result (sample_config 7 false) (sample_env false true)
      (sample_window [] []) 1 101).1.trans (by decide)⟩

/-! ## The config file name -/

theorem toDigits_length_le (n : Nat) (h : n < 100000) :
    (Nat.toDigits 10 n).length ≤ 5 := by
  have h5 := Nat.repr_length n 5 (by decide) (by omega)
  simpa [Nat.repr] using h5

/-- For an instance number of at most five digits the config file name is the
home directory, the prefix and the decimal instance number, unabridged. -/
theorem get_config_file_name_exact (home_dir : List gchar) (n : Nat) (h : n < 100000) :
    get_config_file_name true home_dir (n : Int)
      = some (home_dir ++ config_prefix ++ Nat.toDigits 10 n) := by
  have hlen := toDigits_length_le n h
  have hfmt : format_d (n : Int) = Nat.toDigits 10 n := by
    simp [format_d]
  have hstr : g_snprintf instance_str_size (format_d (n : Int)) = Nat.toDigits 10 n := by
    rw [hfmt]
    exact List.take_of_length_le (by simp [instance_str_size]; omega)
  simp only [get_config_file_name, hstr, strlen]
  simp only [g_snprintf, Bool.true_eq_false, if_false]
  congr 1
  exact List.take_of_length_le (by simp only [List.length_append]; omega)

/-- C1 (the code at the failing input): for the instance number 100000 the
six-byte buffer `instance_str` keeps only "10000", so the config file name is
"/home/u/.tilda/config_10000" and not "/home/u/.tilda/config_100000"; the name
collides with the one of instance 10000.  The spec's scenario (instance 2) is
exact. -/
theorem get_config_file_name_truncates :
    get_config_file_name true "/home/u".toList 100000
        = some "/home/u/.tilda/config_10000".toList ∧
      get_config_file_name true "/home/u".toList 100000
        ≠ some ("/home/u".toList ++ "/.tilda/config_".toList ++ Nat.toDigits 10 100000) ∧
      get_config_file_name true "/home/u".toList 100000
        = get_config_file_name true "/home/u".toList 10000 ∧
      (init_tilda_window_instance true 100000 (sample_window [] [])).map
          (fun tw => tw.config_file)
        = some "/home/u/.tilda/config_10000".toList ∧
      get_config_file_name true "/home/u".toList 2
        = some "/home/u/.tilda/config_2".toList := by
  refine ⟨by decide, by decide, by decide, by decide, by decide⟩

end Tilda
